import Mathlib

/-!
Shallow embedding of `src-tauri/src/lib.rs` (the `run` entry point of the
test-pilot desktop application) and proofs of the specification claims.

The Rust source builds a `tauri_plugin_log` plugin with threshold
`LevelFilter::Debug`, registers the HTTP plugin and then the log plugin on a
`tauri::Builder`, installs a setup closure that writes the `RUST_LOG`
environment variable and emits two `log::info!` records, runs the shell's
event loop, and `.expect`s the result.

The shell framework (`tauri`) is an external collaborator; its documented
contract — plugins are attached in registration order, the setup hook runs
exactly once after construction and before the event loop, a returned error
surfaces from `run` — is embedded as an event-trace semantics
(`Builder.run`), parameterised by an abstract external world (`ShellWorld`)
supplying the initial process environment, the app handle, each plugin's
initialisation outcome, and the run loop's behaviour.
-/

/-- Severity levels of the `log` crate's `LevelFilter`
(`Off < Error < Warn < Info < Debug < Trace`, most verbose last). -/
inductive Level
  | off
  | error
  | warn
  | info
  | debug
  | trace
deriving DecidableEq, Repr, Fintype

/-- Numeric verbosity of a level: higher means more verbose. -/
def Level.verbosity : Level → Nat
  | .off => 0
  | .error => 1
  | .warn => 2
  | .info => 3
  | .debug => 4
  | .trace => 5

/-- All severity levels, in increasing verbosity. -/
def allLevels : List Level :=
  [Level.off, Level.error, Level.warn, Level.info, Level.debug, Level.trace]

/-- A plugin value as registered on the builder: the HTTP plugin from
`tauri_plugin_http::init()`, or the logging plugin carrying the severity
floor it was built with. -/
inductive Plugin
  | http
  | log (threshold : Level)
deriving DecidableEq, Repr

/-- Crate name of a plugin. -/
def Plugin.name : Plugin → String
  | .http => "tauri-plugin-http"
  | .log _ => "tauri-plugin-log"

/-- The builder of `tauri_plugin_log` (`tauri_plugin_log::Builder`): the only
field this program touches is the maximum level filter. -/
structure LogBuilder where
  maxLevel : Level
deriving DecidableEq, Repr

/-- The builder's default: the plugin's default filter is `Trace`
(everything passes until `.level(...)` lowers it). -/
def LogBuilder.default : LogBuilder :=
  { maxLevel := Level.trace }

/-- The `.level(filter)` builder method. -/
def LogBuilder.level (b : LogBuilder) (l : Level) : LogBuilder :=
  { b with maxLevel := l }

/-- The `.build()` builder method: packages the configured filter as the
logging plugin. -/
def LogBuilder.build (b : LogBuilder) : Plugin :=
  Plugin.log b.maxLevel

/-- The emitted plugin of `tauri_plugin_http::init()`. -/
def tauri_plugin_http.init : Plugin :=
  Plugin.http

/-- The `log_plugin` local of `run`:
`tauri_plugin_log::Builder::default().level(LevelFilter::Debug).build()`. -/
def log_plugin : Plugin :=
  ((LogBuilder.default).level Level.debug).build

/-- The Logging Configurator viewed as something invoked repeatedly: the
argument records which invocation it is and is ignored, since the
construction in the source reads no runtime input at all. -/
def logConfigurator (_invocation : Nat) : Plugin :=
  ((LogBuilder.default).level Level.debug).build

/-- Process-wide environment state: an association list from variable name
to value (first binding wins on lookup). -/
abbrev EnvState : Type :=
  List (String × String)

/-- The `std::env::set_var` primitive: bind `k` to `v`, shadowing and
dropping any previous binding of `k`. -/
def set_var (env : EnvState) (k v : String) : EnvState :=
  (k, v) :: List.filter (fun p => p.1 != k) env

/-- The `std::env::var` read side: the current value of `k`, if bound. -/
def get_var (env : EnvState) (k : String) : Option String :=
  Option.map Prod.snd (List.find? (fun p => p.1 == k) env)

/-- An opaque handle to the constructed shell, as passed to the setup hook
(`_app` in the source). Different `id`s stand for observably different
handles. -/
structure AppHandle where
  id : Nat
deriving DecidableEq, Repr

/-- One observable action performed by the setup closure's body. -/
inductive HookAction
  | setEnv (key value : String)
  | logRecord (lvl : Level) (msg : String)
deriving DecidableEq, Repr

/-- The setup closure of `run`, translated statement by statement:
`std::env::set_var("RUST_LOG", "tauri=debug,tauri_plugin_http=debug")`,
two `log::info!` records, then `Ok(())`. The `_app` handle is unused. -/
def setupClosure (_app : AppHandle) : List HookAction × Except String Unit :=
  ( [ HookAction.setEnv "RUST_LOG" "tauri=debug,tauri_plugin_http=debug"
    , HookAction.logRecord Level.info
        "Test-Pilot application started with HTTP logging enabled"
    , HookAction.logRecord Level.info
        "Set RUST_LOG=tauri=debug,tauri_plugin_http=debug for HTTP request logging" ]
  , Except.ok () )

/-- The `tauri::Builder` state this program manipulates: the ordered plugin
list and the optional setup hook. -/
structure Builder where
  plugins : List Plugin
  setupHook : Option (AppHandle → List HookAction × Except String Unit)

/-- The builder's default: no plugins, no setup hook. -/
def Builder.default : Builder :=
  { plugins := [], setupHook := none }

/-- The `.plugin(p)` builder method: appends to the registration order. -/
def Builder.plugin (b : Builder) (p : Plugin) : Builder :=
  { b with plugins := b.plugins ++ [p] }

/-- The `.setup(hook)` builder method. -/
def Builder.setup (b : Builder)
    (h : AppHandle → List HookAction × Except String Unit) : Builder :=
  { b with setupHook := some h }

/-- The value of `tauri::generate_context!()`: static application context,
passed through unmodified. -/
structure Context where
  appName : String
deriving DecidableEq, Repr

/-- The generated context for this application. -/
def generate_context : Context :=
  { appName := "test-pilot" }

/-- Observable events of a startup run, in trace order. -/
inductive Event
  | pluginAttached (name : String)
  | setupStarted
  | envWritten (key value : String)
  | logEmitted (lvl : Level) (msg : String)
  | setupCompleted
  | runLoopStarted
  | externalEvent (n : Nat)
deriving DecidableEq, Repr

/-- The abstract external world a run takes place in: the inherited process
environment, the shell handle the framework constructs, the outcome of each
plugin's own initialisation, and the run loop's behaviour (the external
events it accepts and its terminal result). -/
structure ShellWorld where
  env0 : EnvState
  app : AppHandle
  pluginInit : Plugin → Except String Unit
  loopEvents : List Nat
  loopResult : Except String Unit

/-- Attach plugins in registration order; stop at the first plugin whose
initialisation fails, attaching none after it. -/
def attachPlugins (f : Plugin → Except String Unit) :
    List Plugin → List Event × Except String Unit
  | [] => ([], Except.ok ())
  | p :: ps =>
    match f p with
    | Except.ok _ =>
        ( Event.pluginAttached p.name :: (attachPlugins f ps).1
        , (attachPlugins f ps).2 )
    | Except.error e => ([], Except.error e)

/-- Give one hook action its effect on the environment and its trace event. -/
def applyAction (env : EnvState) : HookAction → EnvState × Event
  | HookAction.setEnv k v => (set_var env k v, Event.envWritten k v)
  | HookAction.logRecord l m => (env, Event.logEmitted l m)

/-- Run the hook's actions left to right, threading the environment. -/
def applyActions (env : EnvState) : List HookAction → EnvState × List Event
  | [] => (env, [])
  | a :: rest =>
      ( (applyActions (applyAction env a).1 rest).1
      , (applyAction env a).2 :: (applyActions (applyAction env a).1 rest).2 )

/-- Result of a whole run: the event trace, the final process environment,
and the value `Builder::run` reports. -/
structure RunOutcome where
  trace : List Event
  env : EnvState
  result : Except String Unit

/-- The shell's `run` operation, per the framework contract: attach every
registered plugin in order (a failure aborts the run before the hook), run
the setup hook exactly once (its error aborts before the run loop), then
start the run loop and accept the world's external events until the loop's
terminal result. -/
def Builder.run (b : Builder) (_ctx : Context) (w : ShellWorld) : RunOutcome :=
  match (attachPlugins w.pluginInit b.plugins).2 with
  | Except.error e =>
      { trace := (attachPlugins w.pluginInit b.plugins).1
      , env := w.env0
      , result := Except.error e }
  | Except.ok _ =>
    match b.setupHook with
    | none =>
        { trace := (attachPlugins w.pluginInit b.plugins).1
            ++ [Event.runLoopStarted]
            ++ List.map Event.externalEvent w.loopEvents
        , env := w.env0
        , result := w.loopResult }
    | some h =>
      match (h w.app).2 with
      | Except.error e =>
          { trace := (attachPlugins w.pluginInit b.plugins).1
              ++ [Event.setupStarted]
              ++ (applyActions w.env0 (h w.app).1).2
          , env := (applyActions w.env0 (h w.app).1).1
          , result := Except.error e }
      | Except.ok _ =>
          { trace := (attachPlugins w.pluginInit b.plugins).1
              ++ [Event.setupStarted]
              ++ (applyActions w.env0 (h w.app).1).2
              ++ [Event.setupCompleted, Event.runLoopStarted]
              ++ List.map Event.externalEvent w.loopEvents
          , env := (applyActions w.env0 (h w.app).1).1
          , result := w.loopResult }

/-- How the process ends: blocked in / returned from a healthy run loop, or
a panic from `.expect` with its message. -/
inductive ProcessOutcome
  | completed
  | panicked (msg : String)
deriving DecidableEq, Repr

/-- Rust's `Result::expect(msg)`: on `Err(e)` the process panics with
`msg: e`. -/
def expectMsg (r : Except String Unit) (msg : String) : ProcessOutcome :=
  match r with
  | Except.ok _ => ProcessOutcome.completed
  | Except.error e => ProcessOutcome.panicked (msg ++ ": " ++ e)

/-- The `run` entry point of `lib.rs`: build the log plugin at `Debug`,
register the HTTP plugin then the log plugin, install the setup closure,
run the shell, and `.expect` the result. -/
def run (w : ShellWorld) : RunOutcome × ProcessOutcome :=
  ( Builder.run
      (Builder.setup
        (Builder.plugin (Builder.plugin Builder.default tauri_plugin_http.init)
          log_plugin)
        setupClosure)
      generate_context w
  , expectMsg
      (Builder.run
        (Builder.setup
          (Builder.plugin (Builder.plugin Builder.default tauri_plugin_http.init)
            log_plugin)
          setupClosure)
        generate_context w).result
      "error while running tauri application" )

/-- The three trace events the setup hook contributes, in source order. -/
def setupHookEvents : List Event :=
  [ Event.envWritten "RUST_LOG" "tauri=debug,tauri_plugin_http=debug"
  , Event.logEmitted Level.info
      "Test-Pilot application started with HTTP logging enabled"
  , Event.logEmitted Level.info
      "Set RUST_LOG=tauri=debug,tauri_plugin_http=debug for HTTP request logging" ]

/-- The full startup prefix of a successful run's trace, before any
external event. -/
def startupTrace : List Event :=
  [ Event.pluginAttached "tauri-plugin-http"
  , Event.pluginAttached "tauri-plugin-log" ]
  ++ [Event.setupStarted]
  ++ setupHookEvents
  ++ [Event.setupCompleted, Event.runLoopStarted]

/-- Decide whether an event is an informational log record. -/
def isInfoLog : Event → Bool
  | Event.logEmitted Level.info _ => true
  | _ => false

/-- A concrete world in which every plugin initialises and the run loop is
healthy, used by witnesses. -/
def okWorld : ShellWorld :=
  { env0 := [("RUST_LOG", "warn"), ("HOME", "/home/tester")]
  , app := { id := 7 }
  , pluginInit := fun _ => Except.ok ()
  , loopEvents := [0, 1, 2]
  , loopResult := Except.ok () }

/-- A concrete world in which every plugin initialisation fails. -/
def failWorld : ShellWorld :=
  { env0 := []
  , app := { id := 0 }
  , pluginInit := fun _ => Except.error "boom"
  , loopEvents := []
  , loopResult := Except.ok () }

/-- A concrete world in which startup succeeds but the run loop reports a
fatal error. -/
def loopFailWorld : ShellWorld :=
  { env0 := []
  , app := { id := 0 }
  , pluginInit := fun _ => Except.ok ()
  , loopEvents := [4]
  , loopResult := Except.error "event loop crashed" }

/-! ## Helper lemmas -/

lemma attachPlugins_ok (f : Plugin → Except String Unit)
    (h1 : f Plugin.http = Except.ok ())
    (h2 : f (Plugin.log Level.debug) = Except.ok ()) :
    attachPlugins f [Plugin.http, Plugin.log Level.debug]
      = ( [ Event.pluginAttached "tauri-plugin-http"
          , Event.pluginAttached "tauri-plugin-log" ]
        , Except.ok () ) := by
  simp [attachPlugins, h1, h2, Plugin.name]

lemma run_snd_eq (w : ShellWorld) :
    (run w).2 = expectMsg (run w).1.result "error while running tauri application" :=
  rfl

lemma run_success_eq (w : ShellWorld)
    (h1 : w.pluginInit Plugin.http = Except.ok ())
    (h2 : w.pluginInit (Plugin.log Level.debug) = Except.ok ()) :
    (run w).1.trace = startupTrace ++ List.map Event.externalEvent w.loopEvents ∧
    (run w).1.env = set_var w.env0 "RUST_LOG" "tauri=debug,tauri_plugin_http=debug" ∧
    (run w).1.result = w.loopResult := by
  simp [run, Builder.run, Builder.default, Builder.plugin, Builder.setup,
    tauri_plugin_http.init, log_plugin, LogBuilder.default, LogBuilder.level,
    LogBuilder.build, attachPlugins, h1, h2, setupClosure, applyActions,
    applyAction, startupTrace, setupHookEvents, Plugin.name]

lemma run_fail_http_eq (w : ShellWorld) (e : String)
    (h1 : w.pluginInit Plugin.http = Except.error e) :
    (run w).1.trace = [] ∧ (run w).1.result = Except.error e := by
  simp [run, Builder.run, Builder.default, Builder.plugin, Builder.setup,
    tauri_plugin_http.init, log_plugin, LogBuilder.default, LogBuilder.level,
    LogBuilder.build, attachPlugins, h1]

lemma run_fail_log_eq (w : ShellWorld) (e : String)
    (h1 : w.pluginInit Plugin.http = Except.ok ())
    (h2 : w.pluginInit (Plugin.log Level.debug) = Except.error e) :
    (run w).1.trace = [Event.pluginAttached "tauri-plugin-http"] ∧
    (run w).1.result = Except.error e := by
  simp [run, Builder.run, Builder.default, Builder.plugin, Builder.setup,
    tauri_plugin_http.init, log_plugin, LogBuilder.default, LogBuilder.level,
    LogBuilder.build, attachPlugins, h1, h2, Plugin.name]

/-! ## Claim theorems -/

/-- C1: after the Setup Hook completes (for every world in which both
plugins initialise, so the hook runs), reading the diagnostic environment
key `RUST_LOG` returns exactly the literal string
`"tauri=debug,tauri_plugin_http=debug"`; the value is the same literal for
every world, hence identical in every run with no variation. -/
theorem env_write_correctness (w : ShellWorld)
    (h1 : w.pluginInit Plugin.http = Except.ok ())
    (h2 : w.pluginInit (Plugin.log Level.debug) = Except.ok ()) :
    get_var (run w).1.env "RUST_LOG" = some "tauri=debug,tauri_plugin_http=debug" := by
  rw [(run_success_eq w h1 h2).2.1]
  simp [get_var, set_var, List.find?]

/-- Witness for C1 at a concrete world whose inherited environment already
binds `RUST_LOG` to a different value. -/
theorem env_write_correctness_witness :
    get_var (run okWorld).1.env "RUST_LOG" = some "tauri=debug,tauri_plugin_http=debug" :=
  env_write_correctness okWorld rfl rfl

/-- C3: the Logging Configurator produces the logging plugin with its
threshold fixed at `Debug`; `Debug` is the second-most-verbose level (the
only strictly more verbose level among all levels is `Trace`); the
construction is a closed total term, taking no runtime input and unable to
fail. -/
theorem log_threshold_debug :
    log_plugin = Plugin.log Level.debug ∧
    List.filter (fun l => Level.verbosity Level.debug < Level.verbosity l) allLevels
      = [Level.trace] ∧
    (∀ l : Level, l ∈ allLevels) :=
  ⟨rfl, by decide, by decide⟩

/-- C6: the Setup Hook is infallible: on every invocation, whatever the
handle, its action list is exactly the environment write followed by the
two informational log emissions, and its result is `Ok(())` — it never
returns an error. -/
theorem setup_hook_infallible (a : AppHandle) :
    setupClosure a
      = ( [ HookAction.setEnv "RUST_LOG" "tauri=debug,tauri_plugin_http=debug"
          , HookAction.logRecord Level.info
              "Test-Pilot application started with HTTP logging enabled"
          , HookAction.logRecord Level.info
              "Set RUST_LOG=tauri=debug,tauri_plugin_http=debug for HTTP request logging" ]
        , Except.ok () ) :=
  rfl

/-- Witness for C6 at a concrete handle. -/
theorem setup_hook_infallible_witness :
    setupClosure (AppHandle.mk 42)
      = ( [ HookAction.setEnv "RUST_LOG" "tauri=debug,tauri_plugin_http=debug"
          , HookAction.logRecord Level.info
              "Test-Pilot application started with HTTP logging enabled"
          , HookAction.logRecord Level.info
              "Set RUST_LOG=tauri=debug,tauri_plugin_http=debug for HTTP request logging" ]
        , Except.ok () ) :=
  setup_hook_infallible (AppHandle.mk 42)

/-- C8: the Logging Configurator is pure and idempotent: any two
invocations yield the same plugin value, namely the logging plugin at
`Debug`, which is also the `log_plugin` value the bootstrap registers. -/
theorem log_configurator_idempotent (i j : Nat) :
    logConfigurator i = logConfigurator j ∧
    logConfigurator i = Plugin.log Level.debug ∧
    logConfigurator i = log_plugin :=
  ⟨rfl, rfl, rfl⟩

/-- Witness for C8 at two concrete invocation indices. -/
theorem log_configurator_idempotent_witness :
    logConfigurator 0 = logConfigurator 17 ∧
    logConfigurator 0 = Plugin.log Level.debug ∧
    logConfigurator 0 = log_plugin :=
  log_configurator_idempotent 0 17

/-- C9: the Setup Hook's behaviour is independent of the shell handle: any
two handles produce identical hook output (same environment write, same two
log records, same `Ok(())` result), and two whole runs differing only in
the app handle are identical. -/
theorem setup_hook_handle_independent (w : ShellWorld) (a a' : AppHandle) :
    setupClosure a = setupClosure a' ∧
    (setupClosure a).2 = Except.ok () ∧
    run { w with app := a } = run { w with app := a' } :=
  ⟨rfl, rfl, rfl⟩

/-- Witness for C9 at two concrete distinct handles. -/
theorem setup_hook_handle_independent_witness :
    setupClosure (AppHandle.mk 1) = setupClosure (AppHandle.mk 2) ∧
    (setupClosure (AppHandle.mk 1)).2 = Except.ok () ∧
    run { okWorld with app := AppHandle.mk 1 }
      = run { okWorld with app := AppHandle.mk 2 } :=
  setup_hook_handle_independent okWorld (AppHandle.mk 1) (AppHandle.mk 2)

/-- C2: in every successful startup the trace decomposes as the HTTP
attachment, then the logging attachment, then the Setup Hook's start,
actions and completion, then the run loop start, and only then the external
events: capability attachment completes in the fixed order strictly before
the Setup Hook executes, and the hook completes strictly before the run
loop accepts its first external event. -/
theorem startup_order (w : ShellWorld)
    (h1 : w.pluginInit Plugin.http = Except.ok ())
    (h2 : w.pluginInit (Plugin.log Level.debug) = Except.ok ()) :
    ∃ ext : List Event,
      (run w).1.trace
        = [Event.pluginAttached "tauri-plugin-http"]
          ++ [Event.pluginAttached "tauri-plugin-log"]
          ++ [Event.setupStarted]
          ++ setupHookEvents
          ++ [Event.setupCompleted]
          ++ [Event.runLoopStarted]
          ++ ext
      ∧ (∀ e, e ∈ ext → ∃ n, e = Event.externalEvent n) := by
  refine ⟨List.map Event.externalEvent w.loopEvents, ?_, ?_⟩
  · rw [(run_success_eq w h1 h2).1]
    rfl
  · intro e he
    rcases List.mem_map.mp he with ⟨n, -, rfl⟩
    exact ⟨n, rfl⟩

/-- Witness for C2 at a concrete world with three external events. -/
theorem startup_order_witness :
    ∃ ext : List Event,
      (run okWorld).1.trace
        = [Event.pluginAttached "tauri-plugin-http"]
          ++ [Event.pluginAttached "tauri-plugin-log"]
          ++ [Event.setupStarted]
          ++ setupHookEvents
          ++ [Event.setupCompleted]
          ++ [Event.runLoopStarted]
          ++ ext
      ∧ (∀ e, e ∈ ext → ∃ n, e = Event.externalEvent n) :=
  startup_order okWorld rfl rfl

/-- C4: in every world the Setup Hook starts at most once, and in every
world where both plugins initialise (a successful startup) it starts
exactly once — never zero times on success, never more than once. -/
theorem setup_hook_exactly_once (w : ShellWorld) :
    (run w).1.trace.count Event.setupStarted ≤ 1 ∧
    (w.pluginInit Plugin.http = Except.ok () →
     w.pluginInit (Plugin.log Level.debug) = Except.ok () →
     (run w).1.trace.count Event.setupStarted = 1) := by
  have hmap : List.count Event.setupStarted
      (List.map Event.externalEvent w.loopEvents) = 0 := by
    rw [List.count_eq_zero]
    intro hmem
    rcases List.mem_map.mp hmem with ⟨n, -, h⟩
    simp at h
  have hstart : List.count Event.setupStarted startupTrace = 1 := by decide
  refine ⟨?_, ?_⟩
  · cases hhttp : w.pluginInit Plugin.http with
    | error e =>
        rw [(run_fail_http_eq w e hhttp).1]
        decide
    | ok u =>
        cases u
        cases hlog : w.pluginInit (Plugin.log Level.debug) with
        | error e =>
            rw [(run_fail_log_eq w e hhttp hlog).1]
            decide
        | ok u' =>
            cases u'
            rw [(run_success_eq w hhttp hlog).1, List.count_append, hmap, hstart]
  · intro h1 h2
    rw [(run_success_eq w h1 h2).1, List.count_append, hmap, hstart]

/-- Witness for C4 at a concrete successful world. -/
theorem setup_hook_exactly_once_witness :
    (run okWorld).1.trace.count Event.setupStarted = 1 :=
  (setup_hook_exactly_once okWorld).2 rfl rfl

/-- C5: in every successful startup exactly two informational log records
appear in the whole trace, and the trace splits at the run-loop start with
both records strictly before it and none after, regardless of the run
loop's subsequent activity. -/
theorem two_info_logs (w : ShellWorld)
    (h1 : w.pluginInit Plugin.http = Except.ok ())
    (h2 : w.pluginInit (Plugin.log Level.debug) = Except.ok ()) :
    List.countP isInfoLog (run w).1.trace = 2 ∧
    ∃ pre post,
      (run w).1.trace = pre ++ Event.runLoopStarted :: post ∧
      List.countP isInfoLog pre = 2 ∧
      List.countP isInfoLog post = 0 := by
  have hpost : List.countP isInfoLog
      (List.map Event.externalEvent w.loopEvents) = 0 := by
    rw [List.countP_eq_zero]
    intro e he
    rcases List.mem_map.mp he with ⟨n, -, rfl⟩
    simp [isInfoLog]
  refine ⟨?_,
    [ Event.pluginAttached "tauri-plugin-http"
    , Event.pluginAttached "tauri-plugin-log"
    , Event.setupStarted ] ++ setupHookEvents ++ [Event.setupCompleted],
    List.map Event.externalEvent w.loopEvents, ?_, by decide, hpost⟩
  · rw [(run_success_eq w h1 h2).1, List.countP_append, hpost]
    decide
  · rw [(run_success_eq w h1 h2).1]
    rfl

/-- Witness for C5 at a concrete successful world. -/
theorem two_info_logs_witness :
    List.countP isInfoLog (run okWorld).1.trace = 2 ∧
    ∃ pre post,
      (run okWorld).1.trace = pre ++ Event.runLoopStarted :: post ∧
      List.countP isInfoLog pre = 2 ∧
      List.countP isInfoLog post = 0 :=
  two_info_logs okWorld rfl rfl

/-- C7: startup and run-loop failures are fatal. If the HTTP plugin fails
to initialise, the trace reaches neither the Setup Hook nor the run loop
and the process panics with the explanatory message; likewise if the
logging plugin fails; and if startup succeeds but the run loop returns an
error, the process panics with the explanatory message and the error text.
No branch retries or recovers. -/
theorem fatal_on_failure (w : ShellWorld) :
    (∀ e, w.pluginInit Plugin.http = Except.error e →
       Event.setupStarted ∉ (run w).1.trace ∧
       Event.runLoopStarted ∉ (run w).1.trace ∧
       (run w).2 = ProcessOutcome.panicked
         ("error while running tauri application: " ++ e)) ∧
    (∀ e, w.pluginInit Plugin.http = Except.ok () →
       w.pluginInit (Plugin.log Level.debug) = Except.error e →
       Event.setupStarted ∉ (run w).1.trace ∧
       Event.runLoopStarted ∉ (run w).1.trace ∧
       (run w).2 = ProcessOutcome.panicked
         ("error while running tauri application: " ++ e)) ∧
    (∀ e, w.pluginInit Plugin.http = Except.ok () →
       w.pluginInit (Plugin.log Level.debug) = Except.ok () →
       w.loopResult = Except.error e →
       (run w).2 = ProcessOutcome.panicked
         ("error while running tauri application: " ++ e)) := by
  refine ⟨?_, ?_, ?_⟩
  · intro e he
    rcases run_fail_http_eq w e he with ⟨ht, hr⟩
    refine ⟨by rw [ht]; simp, by rw [ht]; simp, ?_⟩
    rw [run_snd_eq, hr]
    rfl
  · intro e h1 h2
    rcases run_fail_log_eq w e h1 h2 with ⟨ht, hr⟩
    refine ⟨by rw [ht]; simp, by rw [ht]; simp, ?_⟩
    rw [run_snd_eq, hr]
    rfl
  · intro e h1 h2 h3
    rw [run_snd_eq, (run_success_eq w h1 h2).2.2, h3]
    rfl

/-- Witness for C7 at a concrete world whose plugins all fail. -/
theorem fatal_on_failure_witness :
    (run failWorld).2
      = ProcessOutcome.panicked "error while running tauri application: boom" := by
  have h := ((fatal_on_failure failWorld).1 "boom" rfl).2.2
  rw [h]
  decide

lemma find?_filter_other (l : EnvState) (k k' : String) (h : k' ≠ k) :
    List.find? (fun p => p.1 == k') (List.filter (fun p => p.1 != k) l)
      = List.find? (fun p => p.1 == k') l := by
  induction l with
  | nil => rfl
  | cons a rest ih =>
    by_cases hak : a.1 = k
    · simp [List.filter_cons, List.find?_cons, hak, Ne.symm h, ih]
    · by_cases hak' : a.1 = k'
      · simp [List.filter_cons, List.find?_cons, hak, hak', h]
      · simp [List.filter_cons, List.find?_cons, hak, hak', ih]

lemma get_var_set_var_other (env : EnvState) (k v k' : String) (h : k' ≠ k) :
    get_var (set_var env k v) k' = get_var env k' := by
  simp [get_var, set_var, List.find?_cons, Ne.symm h, find?_filter_other env k k' h]

/-- C10: in every successful startup the bootstrap's environment write
overwrites whatever value `RUST_LOG` held in the inherited environment with
the fixed string, and every key other than `RUST_LOG` is left exactly as it
was in the inherited environment. -/
theorem env_frame (w : ShellWorld)
    (h1 : w.pluginInit Plugin.http = Except.ok ())
    (h2 : w.pluginInit (Plugin.log Level.debug) = Except.ok ()) :
    get_var (run w).1.env "RUST_LOG" = some "tauri=debug,tauri_plugin_http=debug" ∧
    (∀ k, k ≠ "RUST_LOG" → get_var (run w).1.env k = get_var w.env0 k) := by
  have henv := (run_success_eq w h1 h2).2.1
  constructor
  · rw [henv]
    simp [get_var, set_var, List.find?]
  · intro k hk
    rw [henv]
    exact get_var_set_var_other w.env0 "RUST_LOG" "tauri=debug,tauri_plugin_http=debug" k hk

/-- Witness for C10 at a concrete world whose inherited environment binds
both `RUST_LOG` (overwritten) and `HOME` (untouched). -/
theorem env_frame_witness :
    get_var (run okWorld).1.env "RUST_LOG" = some "tauri=debug,tauri_plugin_http=debug" ∧
    get_var (run okWorld).1.env "HOME" = some "/home/tester" := by
  have h := env_frame okWorld rfl rfl
  refine ⟨h.1, ?_⟩
  rw [h.2 "HOME" (by decide)]
  rfl
